import Mathlib

/-!
Verification of the Jira ticket automation core against its design spec.

The Python source is shallowly embedded: each primitive that touches the
browser or the filesystem becomes a pure Lean function over an explicit
environment describing the outcomes the outside world would produce
(element-wait outcomes, directory listings, window lists, clock readings,
rename faults).  Control flow — retry loops, try/except blocks, sequencing
of workflow steps — is translated directly from the source.
-/

namespace JiraAuto

/-! ## Interaction primitive: SeleniumHelpers.safe_click
(`src/automation/selenium_helpers.py`, lines 29-45)

Each loop attempt can end three ways in the source: the waited element turns
clickable and the JS click runs (success), a `StaleElementReferenceException`
is raised somewhere in the attempt (caught: sleep and re-enter the loop), or
the `WebDriverWait` times out (`TimeoutException` is caught, logged and
re-raised: the function aborts at once).  `outcomes i` is the outcome the
environment produces for the attempt of zero-based index `i`. -/

inductive AttemptOutcome
  | success
  | stale
  | timeoutExn
deriving DecidableEq

inductive ClickResult
  | clicked (attempt : Nat)       -- printed "on attempt {attempt}" (1-based)
  | actionTimeout                 -- re-raised TimeoutException
  | clickFailed (retries : Nat)   -- "FAILED to click element ... after {retries} attempts."
deriving DecidableEq

/-- The `for attempt in range(retries)` loop of `safe_click`, with `remaining`
iterations left and `attempt` the zero-based index of the current one. -/
def safe_click_loop (outcomes : Nat → AttemptOutcome) (retries : Nat) :
    Nat → Nat → ClickResult
  | _, 0 => ClickResult.clickFailed retries
  | attempt, remaining + 1 =>
    match outcomes attempt with
    | AttemptOutcome.success => ClickResult.clicked (attempt + 1)
    | AttemptOutcome.timeoutExn => ClickResult.actionTimeout
    | AttemptOutcome.stale => safe_click_loop outcomes retries (attempt + 1) remaining

/-- `SeleniumHelpers.safe_click` for a given sequence of attempt outcomes. -/
def safe_click (outcomes : Nat → AttemptOutcome) (retries : Nat) : ClickResult :=
  safe_click_loop outcomes retries 0 retries

/-- Outcome sequence used to exercise the click primitive at a concrete input:
two stale attempts, then success on the third. -/
def clickOutcomesStaleTwice : Nat → AttemptOutcome :=
  fun i => if i < 2 then AttemptOutcome.stale else AttemptOutcome.success

/-- Outcome sequence whose third attempt times out waiting for clickability. -/
def clickOutcomesTimeoutThird : Nat → AttemptOutcome :=
  fun i => if i < 2 then AttemptOutcome.stale else AttemptOutcome.timeoutExn

/-! ## Character-list string utilities

Python string predicates modelled over `List Char` so that every operation
reduces by computation. -/

def isPrefixCL : List Char → List Char → Bool
  | [], _ => true
  | _ :: _, [] => false
  | a :: as, b :: bs => a == b && isPrefixCL as bs

/-- Python's substring test `needle in hay`. -/
def isInfixCL (needle : List Char) : List Char → Bool
  | [] => isPrefixCL needle []
  | b :: bs => isPrefixCL needle (b :: bs) || isInfixCL needle bs

/-- Python `str.endswith(suf)`. -/
def pyEndsWith (s suf : String) : Bool :=
  isPrefixCL suf.toList.reverse s.toList.reverse

/-! ## Download completion detector: FileOperations
(`src/utils/file_operations.py`)

A directory entry as `Path.iterdir` exposes it: a name, a modification time
(`st_mtime`, modelled as a natural number), and whether it is a regular file. -/

structure FileEntry where
  name : String
  mtime : Nat
  isFile : Bool
deriving DecidableEq

/-- `FileOperations.find_latest_file` body after the existence check: Python's
`max(files, key=...)` keeps the first maximal element, replacing the running
maximum only on a strictly larger key. -/
def maxByMtime : FileEntry → List FileEntry → FileEntry
  | acc, [] => acc
  | acc, f :: rest => maxByMtime (if acc.mtime < f.mtime then f else acc) rest

/-- `FileOperations.find_latest_file` (lines 14-43).  `none` for the folder
models a missing or non-directory path (early `return None`). -/
def find_latest_file (folder : Option (List FileEntry)) : Option FileEntry :=
  match folder with
  | none => none
  | some entries =>
    let files := entries.filter (fun f => f.isFile)
    let files := files.filter (fun f => !(pyEndsWith f.name ".crdownload"))
    match files with
    | [] => none
    | f :: rest => some (maxByMtime f rest)

/-- Wall-clock reading, the fields `datetime.now()` formats. -/
structure DateTime where
  year : Nat
  month : Nat
  day : Nat
  hour : Nat
  minute : Nat
  second : Nat
deriving DecidableEq

def pad2 (n : Nat) : String := if n < 10 then "0" ++ toString n else toString n

def pad4 (n : Nat) : String :=
  if n < 10 then "000" ++ toString n
  else if n < 100 then "00" ++ toString n
  else if n < 1000 then "0" ++ toString n
  else toString n

/-- `datetime.now().strftime("%Y-%m-%d_%H-%M-%S")`. -/
def strftime_timestamp (t : DateTime) : String :=
  pad4 t.year ++ "-" ++ pad2 t.month ++ "-" ++ pad2 t.day ++ "_" ++
    pad2 t.hour ++ "-" ++ pad2 t.minute ++ "-" ++ pad2 t.second

/-- Zero-based index of the last occurrence of `c`, scanning from offset `i`. -/
def lastIdxOfAux (c : Char) : List Char → Nat → Option Nat
  | [], _ => none
  | a :: rest, i =>
    match lastIdxOfAux c rest (i + 1) with
    | some j => some j
    | none => if a == c then some i else none

def lastIdxOf (c : Char) (l : List Char) : Option Nat := lastIdxOfAux c l 0

/-- `pathlib.PurePath.suffix`: the substring from the last dot of the name,
empty when the dot is leading, trailing or absent. -/
def pySuffix (name : String) : String :=
  let l := name.toList
  match lastIdxOf '.' l with
  | none => ""
  | some i => if 0 < i && i + 1 < l.length then String.mk (l.drop i) else ""

/-- `FileOperations.find_and_rename_latest_file` (lines 46-83).  `dirAt t` is
the directory listing observed after sleeping `t` seconds, so the scan reads
`dirAt wait_seconds`: the grace period elapses before discovery.  `renameOk f`
is whether `Path.rename` succeeds on the discovered file `f`; when it raises
(e.g. the file vanished), the broad `except` prints and returns `None`.
The returned string is the new file name (the parent directory is unchanged). -/
def find_and_rename_latest_file (dirAt : Nat → Option (List FileEntry))
    (newNamePref : String) (wait_seconds : Nat) (now : DateTime)
    (renameOk : FileEntry → Bool) : Option String :=
  match find_latest_file (dirAt wait_seconds) with
  | none => none
  | some latest =>
    let timestamp := strftime_timestamp now
    let file_extension := pySuffix latest.name
    let new_filename := newNamePref ++ "_" ++ timestamp ++ file_extension
    if renameOk latest then some new_filename else none

/-- `JiraOperations._handle_downloaded_file` (`src/jira/operations.py`,
lines 124-137): calls the detector with prefix `"Jira_Report"` and the default
15-second grace period, and raises when it returned `None`. -/
def handle_downloaded_file (dirAt : Nat → Option (List FileEntry))
    (now : DateTime) (renameOk : FileEntry → Bool) : Except String String :=
  match find_and_rename_latest_file dirAt "Jira_Report" 15 now renameOk with
  | some f => Except.ok f
  | none => Except.error "Failed to process downloaded file"

/-! ## Failure taxonomy shared by the state machines

Primitive failures that can propagate out of a workflow step, mirroring the
exceptions of `selenium_helpers.py` / `operations.py` / `jumpcloud_auth.py`. -/

inductive RunError
  | actionTimeout                 -- re-raised TimeoutException
  | clickFailed (retries : Nat)   -- safe_click retries exhausted
  | inputFailed                   -- safe_send_keys TimeoutException
  | tabSwitchTimeout              -- switch_to_new_tab TimeoutException
  | dashboardLoadTimeout          -- "Dashboard failed to load within timeout period"
  | downloadFailed                -- "Failed to process downloaded file"
deriving DecidableEq

/-! ## Query/export state machine: JiraOperations
(`src/jira/operations.py`, lines 29-122)

Each field of `JqlEnv` is the outcome the environment produces for one
primitive call of the run, in program order.  `_navigate_to_search` only runs
`driver.get` and the best-effort `wait_for_page_load` (which catches its own
timeout and proceeds), so it cannot fail and has no field. -/

structure JqlEnv where
  modeClick : Except RunError Unit     -- safe_click on the JQL toggle, timeout=5
  queryKeys : Except RunError Unit     -- safe_send_keys into the JQL editor
  searchClick : Except RunError Unit   -- safe_click on the search trigger
  exportClick : Except RunError Unit   -- safe_click opening the export menu
  csvClick : Except RunError Unit      -- safe_click on the CSV format entry
  download : Except RunError String    -- _handle_downloaded_file result

/-- `JiraOperations._ensure_jql_mode` (lines 75-85): the toggle click sits in
`try: ... except (TimeoutException, Exception): ...` — the tuple names every
exception, so ANY failure of the click is swallowed and printed as
"JQL mode already active". -/
def ensure_jql_mode (modeClick : Except RunError Unit) : Except RunError Unit :=
  match modeClick with
  | Except.ok _ => Except.ok ()
  | Except.error _ => Except.ok ()

/-- `JiraOperations.execute_jql_and_export` (lines 29-67): navigate, ensure
JQL mode, type and submit the query, trigger the CSV export, hand off to the
download detector.  The outer `except` clause prints and re-raises, so it
changes no result. -/
def execute_jql_and_export (env : JqlEnv) : Except RunError String := do
  ensure_jql_mode env.modeClick
  env.queryKeys
  env.searchClick
  env.exportClick
  env.csvClick
  env.download

/-- Environment refuting the propagation claim: the mode-toggle click fails
with retries exhausted (not a timeout), every later step succeeds. -/
def jqlEnvModeClickFailed : JqlEnv :=
  { modeClick := Except.error (RunError.clickFailed 3)
    queryKeys := Except.ok ()
    searchClick := Except.ok ()
    exportClick := Except.ok ()
    csvClick := Except.ok ()
    download := Except.ok "Jira_Report_2024-01-15_09-30-00.csv" }

/-- Query/export environment whose query-entry step fails. -/
def jqlEnvQueryFailed : JqlEnv :=
  { modeClick := Except.ok ()
    queryKeys := Except.error RunError.inputFailed
    searchClick := Except.ok ()
    exportClick := Except.ok ()
    csvClick := Except.ok ()
    download := Except.ok "Jira_Report_2024-01-15_09-30-00.csv" }

/-! ## Authentication state machine: JumpCloudAuth
(`src/auth/jumpcloud_auth.py`) -/

/-- The MFA probe's `WebDriverWait(self.driver, 10)` budget (line 90). -/
def MFA_PROBE_TIMEOUT : Nat := 10

/-- `settings.MFA_TIMEOUT` (`config/settings.py`, line 42). -/
def MFA_TIMEOUT : Nat := 60

structure AuthEnv where
  emailKeys : Except RunError Unit      -- safe_send_keys into the email field
  loginClick1 : Except RunError Unit    -- safe_click on the login button
  passwordKeys : Except RunError Unit   -- safe_send_keys into the password field
  loginClick2 : Except RunError Unit    -- safe_click on the login button again
  mfaVisibleWithin : Nat → Bool         -- push-challenge button visible within t seconds
  dashboardVisibleWithin : Nat → Bool   -- dashboard search input visible within t seconds

/-- `JumpCloudAuth._enter_credentials` (lines 66-80). -/
def enter_credentials (env : AuthEnv) : Except RunError Unit := do
  env.emailKeys
  env.loginClick1
  env.passwordKeys
  env.loginClick2

/-- `JumpCloudAuth._handle_mfa` (lines 82-101): probe for the push button
within `MFA_PROBE_TIMEOUT`; visible means the JS click sends the push (result
`true`); the `TimeoutException` of an absent button is caught, printed and the
method returns normally (result `false`).  No path raises. -/
def handle_mfa (mfaVisibleWithin : Nat → Bool) : Except RunError Bool :=
  if mfaVisibleWithin MFA_PROBE_TIMEOUT then Except.ok true else Except.ok false

/-- `JumpCloudAuth._wait_for_dashboard` (lines 103-114): one wait on the
dashboard search input with the `MFA_TIMEOUT` budget; its timeout becomes the
fatal dashboard-load error. -/
def wait_for_dashboard (dashboardVisibleWithin : Nat → Bool) : Except RunError Unit :=
  if dashboardVisibleWithin MFA_TIMEOUT then Except.ok ()
  else Except.error RunError.dashboardLoadTimeout

/-- Body of the `try` block of `JumpCloudAuth.login` (lines 38-54); the value
is whether the MFA push was sent. -/
def loginSteps (env : AuthEnv) : Except RunError Bool := do
  enter_credentials env
  let pushSent ← handle_mfa env.mfaVisibleWithin
  wait_for_dashboard env.dashboardVisibleWithin
  pure pushSent

/-- `JumpCloudAuth.login`: the surrounding `except` converts any raise into
`False`. -/
def login (env : AuthEnv) : Bool :=
  match loginSteps env with
  | Except.ok _ => true
  | Except.error _ => false

/-- Authentication environment: credentials accepted, no MFA challenge shown,
dashboard loads. -/
def authEnvNoMfa : AuthEnv :=
  { emailKeys := Except.ok ()
    loginClick1 := Except.ok ()
    passwordKeys := Except.ok ()
    loginClick2 := Except.ok ()
    mfaVisibleWithin := fun _ => false
    dashboardVisibleWithin := fun _ => true }

/-! ## Tab-switch primitive: SeleniumHelpers.switch_to_new_tab
(`src/automation/selenium_helpers.py`, lines 122-142)

`windowsAt t` is the list of window titles, oldest first, observed `t` seconds
after the call; `WebDriverWait(...).until(EC.number_of_windows_to_be(2))`
polls it until the count EQUALS 2 or `timeout` elapses. -/

/-- First instant in `t, t+1, ..., t+fuel` satisfying `p`. -/
def pollUntil (p : Nat → Bool) : Nat → Nat → Option Nat
  | t, 0 => if p t then some t else none
  | t, fuel + 1 => if p t then some t else pollUntil p (t + 1) fuel

def switch_to_new_tab (windowsAt : Nat → List String) (timeout : Nat) :
    Except RunError String :=
  match pollUntil (fun t => (windowsAt t).length == 2) 0 timeout with
  | some t => Except.ok ((windowsAt t).getLastD "")
  | none => Except.error RunError.tabSwitchTimeout

/-- Window history refuting the relative-increase claim: two windows are
already open at call time and the count never changes. -/
def windowsAlreadyTwo : Nat → List String := fun _ => ["JumpCloud", "Jira"]

/-- Window history for the intended scenario: one window until the new tab
appears at second 3. -/
def windowsGrow : Nat → List String :=
  fun s => if s < 3 then ["JumpCloud"] else ["JumpCloud", "Jira"]

/-! ## Session release and diagnostic capture
(`src/automation/web_driver.py` lines 82-118, `src/main.py` lines 53-121)

The manager state is its `self.driver` slot; observable side effects are
recorded as an event list in program order. -/

inductive CleanupEvent
  | browserClosed      -- driver.quit() ran
  | screenshotSaved    -- driver.save_screenshot ran
deriving DecidableEq

structure DriverManagerState where
  driver : Option Unit
deriving DecidableEq

/-- `WebDriverManager.close_driver` (lines 82-101): when a driver is live it
quits the browser and the `finally` sets `self.driver = None`; otherwise it
does nothing. -/
def close_driver (s : DriverManagerState) : DriverManagerState × List CleanupEvent :=
  match s.driver with
  | some _ => (⟨none⟩, [CleanupEvent.browserClosed])
  | none => (s, [])

/-- `WebDriverManager.__exit__` (lines 107-118), called with whether an
exception is propagating (`exc_type` non-None): it first runs `close_driver()`,
THEN checks `if exc_type and self.driver` before saving the screenshot. -/
def webdriver_exit (s : DriverManagerState) (excOccurred : Bool) :
    DriverManagerState × List CleanupEvent :=
  let closed := close_driver s
  if excOccurred && closed.1.driver.isSome then
    (closed.1, closed.2 ++ [CleanupEvent.screenshotSaved])
  else
    closed

/-- `JiraAutomationWorkflow._cleanup` (`main.py` lines 108-121) as far as the
browser session is concerned: it calls `close_driver` when a driver was set
and performs no diagnostic capture (the old-file purge does not touch the
session). -/
def workflow_cleanup (s : DriverManagerState) : DriverManagerState × List CleanupEvent :=
  match s.driver with
  | some _ => close_driver s
  | none => (s, [])

/-- `JiraAutomationWorkflow.run_full_workflow` (lines 53-74): the step
sequence runs in a `try`, any exception is logged and mapped to `False`, and
the `finally` runs `_cleanup` on every path before the boolean is returned.
`steps s` is the state after the try body together with its outcome. -/
def run_full_workflow (s : DriverManagerState)
    (steps : DriverManagerState → DriverManagerState × Except RunError Unit) :
    Bool × List CleanupEvent :=
  let afterTry := steps s
  let cleaned := workflow_cleanup afterTry.1
  match afterTry.2 with
  | Except.ok _ => (true, cleaned.2)
  | Except.error _ => (false, cleaned.2)

/-- A run whose query-submission step fails after the driver was set up. -/
def failingQueryRunSteps : DriverManagerState → DriverManagerState × Except RunError Unit :=
  fun _ => (⟨some ()⟩, Except.error (RunError.clickFailed 3))

/-! ## Configuration validation: Settings.validate_credentials
(`src/config/settings.py`, lines 59-74)

Each field mirrors `os.getenv`: `none` for an absent variable, `some s` for a
set one; Python's `not var_value` is true exactly for `None` and `""`. -/

structure SettingsModel where
  JUMPCLOUD_EMAIL : Option String     -- JC_USERNAME
  JUMPCLOUD_PASSWORD : Option String  -- JC_PASSWORD
  JIRA_SEARCH_URL : Option String
  JQL_QUERY : Option String

def falsyStr (v : Option String) : Bool :=
  match v with
  | none => true
  | some s => s.isEmpty

def required_vars (s : SettingsModel) : List (String × Option String) :=
  [("JC_USERNAME", s.JUMPCLOUD_EMAIL), ("JC_PASSWORD", s.JUMPCLOUD_PASSWORD),
   ("JIRA_SEARCH_URL", s.JIRA_SEARCH_URL), ("JQL_QUERY", s.JQL_QUERY)]

/-- The `missing_vars` list the validation loop accumulates, in order. -/
def missing_vars (s : SettingsModel) : List String :=
  ((required_vars s).filter (fun p => falsyStr p.2)).map Prod.fst

/-- `Settings.validate_credentials`: raises `ValueError` with the enumerating
message when anything is missing, else returns `True`. -/
def validate_credentials (s : SettingsModel) : Except String Bool :=
  match missing_vars s with
  | [] => Except.ok true
  | missing =>
      Except.error ("Missing required environment variables: " ++
        String.intercalate ", " missing)

/-- Concrete settings with exactly the password missing. -/
def settingsNoPassword : SettingsModel :=
  { JUMPCLOUD_EMAIL := some "user@example.com"
    JUMPCLOUD_PASSWORD := none
    JIRA_SEARCH_URL := some "https://x.atlassian.net/issues/"
    JQL_QUERY := some "project = X" }

/-! ## JQL syntax validation: JiraOperations validate_query_syntax
(`src/jira/operations.py`, lines 169-195) -/

/-- Python `str.strip()` on the whitespace the embedding models
(space, tab, CR, LF): drop whitespace from both ends. -/
def pyStripL (l : List Char) : List Char :=
  ((l.dropWhile Char.isWhitespace).reverse.dropWhile Char.isWhitespace).reverse

def pyStrip (s : String) : String := String.mk (pyStripL s.toList)

/-- Python `str.lower()` (the query and keywords here are ASCII). -/
def lowerL (l : List Char) : List Char := l.map Char.toLower

/-- `needle` occurs contiguously inside `hay`. -/
def occursIn (needle hay : List Char) : Prop := ∃ s t, hay = s ++ needle ++ t

def singleQuoteChar : Char := Char.ofNat 39

def doubleQuoteChar : Char := Char.ofNat 34

def jql_keywords : List String :=
  ["project", "status", "assignee", "created", "updated", "reporter", "priority"]

/-- `JiraOperations validate_query_syntax`: `False` for an empty or
whitespace-only query; otherwise require some JQL keyword as a
case-insensitive substring of the stripped query and evenly many single and
double quotes in it.  Total, hence it never raises. -/
def validate_query_syntax (jql_query : String) : Bool :=
  let stripped := pyStripL jql_query.toList
  if stripped.isEmpty then false
  else
    let has_keyword :=
      jql_keywords.any (fun k => isInfixCL (lowerL k.toList) (lowerL stripped))
    let single_quotes := stripped.count singleQuoteChar
    let double_quotes := stripped.count doubleQuoteChar
    has_keyword && (single_quotes % 2 == 0) && (double_quotes % 2 == 0)

/-! ## Helper lemmas -/

lemma safe_click_loop_skip_stales (outcomes : Nat → AttemptOutcome) (retries : Nat) :
    ∀ (j attempt remaining : Nat),
      (∀ i, i < j → outcomes (attempt + i) = AttemptOutcome.stale) →
      j ≤ remaining →
      safe_click_loop outcomes retries attempt remaining =
        safe_click_loop outcomes retries (attempt + j) (remaining - j) := by
  intro j
  induction j with
  | zero => intro attempt remaining _ _; simp
  | succ n ih =>
    intro attempt remaining hst hle
    obtain ⟨r, rfl⟩ : ∃ r, remaining = r + 1 := ⟨remaining - 1, by omega⟩
    have h0 : outcomes attempt = AttemptOutcome.stale := by
      have := hst 0 (by omega); simpa using this
    have step : safe_click_loop outcomes retries attempt (r + 1) =
        safe_click_loop outcomes retries (attempt + 1) r := by
      simp [safe_click_loop, h0]
    rw [step, ih (attempt + 1) r (fun i hi => by
      have := hst (i + 1) (by omega)
      simpa [Nat.add_assoc, Nat.add_comm 1 i] using this) (by omega)]
    congr 1
    omega
    omega

lemma maxByMtime_mem (f : FileEntry) (rest : List FileEntry) :
    maxByMtime f rest ∈ f :: rest := by
  induction rest generalizing f with
  | nil => simp [maxByMtime]
  | cons g rest ih =>
    have h := ih (if f.mtime < g.mtime then g else f)
    simp only [maxByMtime]
    rcases List.mem_cons.mp h with h1 | h1
    · rw [h1]
      by_cases hc : f.mtime < g.mtime <;> simp [hc]
    · exact List.mem_cons.mpr (Or.inr (List.mem_cons.mpr (Or.inr h1)))

lemma maxByMtime_ge (f : FileEntry) (rest : List FileEntry) :
    ∀ g ∈ f :: rest, g.mtime ≤ (maxByMtime f rest).mtime := by
  induction rest generalizing f with
  | nil => intro g hg; simp at hg; simp [maxByMtime, hg]
  | cons h rest ih =>
    intro g hg
    simp only [maxByMtime]
    rcases List.mem_cons.mp hg with h1 | h1
    · subst h1
      have := ih (if g.mtime < h.mtime then h else g)
        (if g.mtime < h.mtime then h else g) (List.mem_cons_self _ _)
      by_cases hc : g.mtime < h.mtime
      · simp only [hc, if_true] at this ⊢; omega
      · simpa [hc] using this
    · rcases List.mem_cons.mp h1 with h2 | h2
      · subst h2
        have := ih (if f.mtime < g.mtime then g else f)
          (if f.mtime < g.mtime then g else f) (List.mem_cons_self _ _)
        by_cases hc : f.mtime < g.mtime
        · simpa [hc] using this
        · simp only [hc, if_false] at this ⊢; omega
      · exact ih _ g (List.mem_cons.mpr (Or.inr h2))

lemma pollUntil_eq_some (p : Nat → Bool) :
    ∀ (fuel t u : Nat), p u = true → t ≤ u → u ≤ t + fuel →
      (∀ s, t ≤ s → s < u → p s = false) →
      pollUntil p t fuel = some u := by
  intro fuel
  induction fuel with
  | zero =>
    intro t u hp hle hub _
    have : t = u := by omega
    subst this
    simp [pollUntil, hp]
  | succ n ih =>
    intro t u hp hle hub hmin
    by_cases ht : t = u
    · subst ht; simp [pollUntil, hp]
    · have hpt : p t = false := hmin t le_rfl (by omega)
      simp only [pollUntil, hpt]
      simp only [Bool.false_eq_true, if_false]
      exact ih (t + 1) u hp (by omega) (by omega) (fun s hs1 hs2 => hmin s (by omega) hs2)

lemma pollUntil_eq_none (p : Nat → Bool) :
    ∀ (fuel t : Nat), (∀ s, t ≤ s → s ≤ t + fuel → p s = false) →
      pollUntil p t fuel = none := by
  intro fuel
  induction fuel with
  | zero =>
    intro t h
    simp [pollUntil, h t le_rfl (by omega)]
  | succ n ih =>
    intro t h
    simp only [pollUntil, h t le_rfl (by omega)]
    simp only [Bool.false_eq_true, if_false]
    exact ih (t + 1) (fun s hs1 hs2 => h s (by omega) (by omega))

lemma isPrefixCL_iff : ∀ (n l : List Char), isPrefixCL n l = true ↔ ∃ t, l = n ++ t := by
  intro n
  induction n with
  | nil => intro l; simp [isPrefixCL]
  | cons a as ih =>
    intro l
    cases l with
    | nil =>
      simp only [isPrefixCL]
      constructor
      · intro h; cases h
      · rintro ⟨t, ht⟩; cases ht
    | cons b bs =>
      simp only [isPrefixCL, Bool.and_eq_true, beq_iff_eq]
      rw [ih bs]
      constructor
      · rintro ⟨rfl, t, rfl⟩; exact ⟨t, rfl⟩
      · rintro ⟨t, ht⟩
        injection ht with h1 h2
        exact ⟨h1.symm, t, h2⟩

lemma isInfixCL_iff : ∀ (l n : List Char), isInfixCL n l = true ↔ occursIn n l := by
  intro l
  induction l with
  | nil =>
    intro n
    simp only [isInfixCL, isPrefixCL_iff, occursIn]
    constructor
    · rintro ⟨t, ht⟩
      exact ⟨[], t, by simpa using ht⟩
    · rintro ⟨s, t, ht⟩
      refine ⟨t, ?_⟩
      have hs : s = [] := by
        cases s with
        | nil => rfl
        | cons x xs => cases ht
      subst hs
      simpa using ht
  | cons b bs ih =>
    intro n
    simp only [isInfixCL, Bool.or_eq_true, isPrefixCL_iff, ih, occursIn]
    constructor
    · rintro (⟨t, ht⟩ | ⟨s, t, ht⟩)
      · exact ⟨[], t, by simpa using ht⟩
      · exact ⟨b :: s, t, by simp [ht]⟩
    · rintro ⟨s, t, ht⟩
      cases s with
      | nil => exact Or.inl ⟨t, by simpa using ht⟩
      | cons c s' =>
        injection ht with h1 h2
        exact Or.inr ⟨s', t, h2⟩

lemma count_dropWhile_of_not (p : Char → Bool) (c : Char) (hc : p c = false) :
    ∀ l : List Char, (l.dropWhile p).count c = l.count c := by
  intro l
  induction l with
  | nil => rfl
  | cons a l ih =>
    by_cases ha : p a = true
    · have hne : (a == c) = false := by
        by_cases h : a = c
        · subst h; rw [ha] at hc; cases hc
        · simp [h]
      simp [List.dropWhile_cons, ha, ih, List.count_cons, hne]
    · have ha' : p a = false := by simpa using ha
      simp [List.dropWhile_cons, ha']

lemma count_pyStripL (c : Char) (hc : c.isWhitespace = false) (l : List Char) :
    (pyStripL l).count c = l.count c := by
  unfold pyStripL
  rw [List.count_reverse, count_dropWhile_of_not _ _ hc, List.count_reverse,
    count_dropWhile_of_not _ _ hc]

lemma pyStripL_decomp (l : List Char) :
    ∃ w1 w2 : List Char, l = w1 ++ pyStripL l ++ w2 ∧
      (∀ a ∈ w1, a.isWhitespace = true) ∧ (∀ a ∈ w2, a.isWhitespace = true) := by
  refine ⟨l.takeWhile Char.isWhitespace,
    ((l.dropWhile Char.isWhitespace).reverse.takeWhile Char.isWhitespace).reverse,
    ?_, ?_, ?_⟩
  · unfold pyStripL
    conv_lhs => rw [← List.takeWhile_append_dropWhile Char.isWhitespace l]
    rw [List.append_assoc]
    congr 1
    conv_lhs => rw [← List.reverse_reverse (l.dropWhile Char.isWhitespace)]
    rw [← List.reverse_append, ← List.takeWhile_append_dropWhile Char.isWhitespace
      (l.dropWhile Char.isWhitespace).reverse, List.reverse_append, List.reverse_append]
    simp
  · intro a ha; exact List.mem_takeWhile_imp ha
  · intro a ha
    rw [List.mem_reverse] at ha
    exact List.mem_takeWhile_imp ha

lemma occursIn_cons_iff (n : List Char) (b : Char) (l : List Char) :
    occursIn n (b :: l) ↔ (∃ t, b :: l = n ++ t) ∨ occursIn n l := by
  constructor
  · rintro ⟨s, t, ht⟩
    cases s with
    | nil => exact Or.inl ⟨t, by simpa using ht⟩
    | cons c s' =>
      injection ht with h1 h2
      exact Or.inr ⟨s', t, h2⟩
  · rintro (⟨t, ht⟩ | ⟨s, t, ht⟩)
    · exact ⟨[], t, by simpa using ht⟩
    · exact ⟨b :: s, t, by simp [ht]⟩

lemma occursIn_ws_left (n : List Char) (hne : n ≠ [])
    (hn : ∀ a ∈ n, a.isWhitespace = false) :
    ∀ (w l : List Char), (∀ a ∈ w, a.isWhitespace = true) →
      (occursIn n (w ++ l) ↔ occursIn n l) := by
  intro w
  induction w with
  | nil => intro l _; simp
  | cons b w' ih =>
    intro l hw
    rw [List.cons_append, occursIn_cons_iff, ih l (fun a ha => hw a (List.mem_cons_of_mem b ha))]
    constructor
    · rintro (⟨t, ht⟩ | h)
      · exfalso
        cases n with
        | nil => exact hne rfl
        | cons c n' =>
          injection ht with h1 _
          have hbws : b.isWhitespace = true := hw b (List.mem_cons_self b w')
          have hcws : c.isWhitespace = false := hn c (List.mem_cons_self c n')
          rw [← h1, hbws] at hcws
          cases hcws
      · exact h
    · intro h; exact Or.inr h

lemma occursIn_reverse (n l : List Char) :
    occursIn n.reverse l.reverse ↔ occursIn n l := by
  constructor
  · rintro ⟨s, t, ht⟩
    refine ⟨t.reverse, s.reverse, ?_⟩
    have := congrArg List.reverse ht
    simpa [List.reverse_append, List.append_assoc] using this
  · rintro ⟨s, t, rfl⟩
    exact ⟨t.reverse, s.reverse, by simp [List.reverse_append, List.append_assoc]⟩

lemma occursIn_ws_right (n : List Char) (hne : n ≠ [])
    (hn : ∀ a ∈ n, a.isWhitespace = false) (l w : List Char)
    (hw : ∀ a ∈ w, a.isWhitespace = true) :
    occursIn n (l ++ w) ↔ occursIn n l := by
  rw [← occursIn_reverse n (l ++ w), ← occursIn_reverse n l, List.reverse_append]
  exact occursIn_ws_left n.reverse (by simpa using hne)
    (fun a ha => hn a (List.mem_reverse.mp ha)) w.reverse l.reverse
    (fun a ha => hw a (List.mem_reverse.mp ha))

lemma toLower_preserves_ws (c : Char) (h : c.isWhitespace = true) :
    (Char.toLower c).isWhitespace = true := by
  simp [Char.isWhitespace] at h
  rcases h with ((h | h) | h) | h <;> subst h <;> decide

/-- The keyword test on the lowered stripped query coincides with the test on
the lowered original query, for a needle that is nonempty and free of
whitespace. -/
lemma occursIn_lower_strip (n : List Char) (hne : n ≠ [])
    (hn : ∀ a ∈ n, a.isWhitespace = false) (l : List Char) :
    occursIn n (lowerL (pyStripL l)) ↔ occursIn n (lowerL l) := by
  obtain ⟨w1, w2, hdec, hw1, hw2⟩ := pyStripL_decomp l
  conv_rhs => rw [hdec]
  unfold lowerL
  rw [List.map_append, List.map_append, List.append_assoc]
  rw [occursIn_ws_left n hne hn (w1.map Char.toLower) _
    (fun a ha => by
      obtain ⟨b, hb, rfl⟩ := List.mem_map.mp ha
      exact toLower_preserves_ws b (hw1 b hb))]
  rw [occursIn_ws_right n hne hn _ (w2.map Char.toLower)
    (fun a ha => by
      obtain ⟨b, hb, rfl⟩ := List.mem_map.mp ha
      exact toLower_preserves_ws b (hw2 b hb))]

/-! ## Claim theorems -/

/-- C1: for `safe_click` with configured retries, a stale-element failure on
an attempt re-enters the retry loop, so that k−1 injected stale failures
followed by success on attempt k (k ≤ retries) yield success reporting
exactly k attempts; retries consecutive stale failures yield the click-failed
error naming the retries count; and a timeout on any attempt aborts
immediately with the timeout error without consuming further attempts. -/
theorem safe_click_retry_semantics (outcomes : Nat → AttemptOutcome)
    (retries k j : Nat) :
    (1 ≤ k → k ≤ retries →
      (∀ i, i < k - 1 → outcomes i = AttemptOutcome.stale) →
      outcomes (k - 1) = AttemptOutcome.success →
      safe_click outcomes retries = ClickResult.clicked k) ∧
    ((∀ i, i < retries → outcomes i = AttemptOutcome.stale) →
      safe_click outcomes retries = ClickResult.clickFailed retries) ∧
    (j < retries →
      (∀ i, i < j → outcomes i = AttemptOutcome.stale) →
      outcomes j = AttemptOutcome.timeoutExn →
      safe_click outcomes retries = ClickResult.actionTimeout) := by
  refine ⟨?_, ?_, ?_⟩
  · intro hk1 hkr hst hsucc
    unfold safe_click
    rw [safe_click_loop_skip_stales outcomes retries (k - 1) 0 retries
      (fun i hi => by simpa using hst i hi) (by omega)]
    obtain ⟨m, hm⟩ : ∃ m, retries - (k - 1) = m + 1 := ⟨retries - k, by omega⟩
    rw [hm]
    simp only [Nat.zero_add]
    have hk : k - 1 + 1 = k := by omega
    simp [safe_click_loop, hsucc, hk]
  · intro hst
    unfold safe_click
    rw [safe_click_loop_skip_stales outcomes retries retries 0 retries
      (fun i hi => by simpa using hst i hi) le_rfl]
    simp [safe_click_loop]
  · intro hj hst htime
    unfold safe_click
    rw [safe_click_loop_skip_stales outcomes retries j 0 retries
      (fun i hi => by simpa using hst i hi) (by omega)]
    obtain ⟨m, hm⟩ : ∃ m, retries - j = m + 1 := ⟨retries - j - 1, by omega⟩
    rw [hm]
    simp only [Nat.zero_add]
    simp [safe_click_loop, htime]

theorem safe_click_retry_semantics_witness :
    safe_click clickOutcomesStaleTwice 3 = ClickResult.clicked 3 ∧
    safe_click (fun _ => AttemptOutcome.stale) 3 = ClickResult.clickFailed 3 ∧
    safe_click clickOutcomesTimeoutThird 5 = ClickResult.actionTimeout :=
  ⟨(safe_click_retry_semantics clickOutcomesStaleTwice 3 3 0).1 (by decide)
      (by decide) (by decide) (by decide),
   (safe_click_retry_semantics (fun _ => AttemptOutcome.stale) 3 0 0).2.1
      (fun _ _ => rfl),
   (safe_click_retry_semantics clickOutcomesTimeoutThird 5 0 2).2.2 (by decide)
      (by decide) (by decide)⟩

/-- C2: whenever the detector has selected a file and the rename step then
fails on it (filesystem fault, e.g. the file vanished), the operation yields
`None` — never a success value — and the caller
(`_handle_downloaded_file`) turns that into the raised processing error, so
the failure is surfaced, not swallowed into a non-error result. -/
theorem rename_failure_surfaced (dirAt : Nat → Option (List FileEntry))
    (p : String) (w : Nat) (now : DateTime) (renameOk : FileEntry → Bool)
    (f : FileEntry) (hfound : find_latest_file (dirAt w) = some f)
    (hfail : renameOk f = false) :
    find_and_rename_latest_file dirAt p w now renameOk = none ∧
    (w = 15 → p = "Jira_Report" →
      handle_downloaded_file dirAt now renameOk =
        Except.error "Failed to process downloaded file") := by
  have h1 : find_and_rename_latest_file dirAt p w now renameOk = none := by
    unfold find_and_rename_latest_file
    rw [hfound]
    simp [hfail]
  refine ⟨h1, ?_⟩
  rintro rfl rfl
  unfold handle_downloaded_file
  rw [h1]

theorem rename_failure_surfaced_witness :
    find_and_rename_latest_file (fun _ => some [⟨"export.csv", 100, true⟩])
      "Jira_Report" 15 ⟨2024, 1, 15, 9, 30, 0⟩ (fun _ => false) = none ∧
    handle_downloaded_file (fun _ => some [⟨"export.csv", 100, true⟩])
      ⟨2024, 1, 15, 9, 30, 0⟩ (fun _ => false) =
      Except.error "Failed to process downloaded file" :=
  have h := rename_failure_surfaced (fun _ => some [⟨"export.csv", 100, true⟩])
    "Jira_Report" 15 ⟨2024, 1, 15, 9, 30, 0⟩ (fun _ => false)
    ⟨"export.csv", 100, true⟩ rfl rfl
  ⟨h.1, h.2 rfl rfl⟩

/-- C3: the detector scans the directory state as observed after the grace
period (the scan depends only on `dirAt wait_seconds`), keeps only regular
files whose names lack the `.crdownload` in-progress suffix, yields no file
when no candidate remains, and otherwise selects a candidate of maximal
modification time — in particular, a fully-written file is preferred over a
later-modified `.crdownload` file. -/
theorem find_latest_file_selection (entries : List FileEntry) (f : FileEntry)
    (dirA dirB : Nat → Option (List FileEntry)) (p : String) (w : Nat)
    (now : DateTime) (rok : FileEntry → Bool) :
    ((entries.filter (fun g => g.isFile)).filter
        (fun g => !(pyEndsWith g.name ".crdownload")) = [] →
      find_latest_file (some entries) = none) ∧
    (find_latest_file (some entries) = some f →
      f ∈ (entries.filter (fun g => g.isFile)).filter
          (fun g => !(pyEndsWith g.name ".crdownload")) ∧
      ∀ g ∈ (entries.filter (fun g => g.isFile)).filter
          (fun g => !(pyEndsWith g.name ".crdownload")), g.mtime ≤ f.mtime) ∧
    (dirA w = dirB w →
      find_and_rename_latest_file dirA p w now rok =
        find_and_rename_latest_file dirB p w now rok) ∧
    find_latest_file
        (some [⟨"report.csv", 10, true⟩, ⟨"part.crdownload", 20, true⟩]) =
      some ⟨"report.csv", 10, true⟩ := by
  refine ⟨?_, ?_, ?_, rfl⟩
  · intro h
    simp only [find_latest_file, h]
  · intro h
    rcases hfiles : (entries.filter (fun g => g.isFile)).filter
        (fun g => !(pyEndsWith g.name ".crdownload")) with _ | ⟨f0, rest⟩
    · simp only [find_latest_file, hfiles] at h
      cases h
    · simp only [find_latest_file, hfiles] at h
      injection h with h
      subst h
      exact ⟨hfiles ▸ maxByMtime_mem f0 rest, hfiles ▸ maxByMtime_ge f0 rest⟩
  · intro h
    unfold find_and_rename_latest_file
    rw [h]

theorem find_latest_file_selection_witness :
    find_latest_file (some [⟨"a.csv", 5, true⟩, ⟨"b.csv", 9, true⟩,
        ⟨"c.crdownload", 30, true⟩]) = some ⟨"b.csv", 9, true⟩ ∧
    (⟨"b.csv", 9, true⟩ : FileEntry) ∈
      (([⟨"a.csv", 5, true⟩, ⟨"b.csv", 9, true⟩, ⟨"c.crdownload", 30, true⟩] :
          List FileEntry).filter (fun g => g.isFile)).filter
        (fun g => !(pyEndsWith g.name ".crdownload")) ∧
    ∀ g ∈ (([⟨"a.csv", 5, true⟩, ⟨"b.csv", 9, true⟩, ⟨"c.crdownload", 30, true⟩] :
          List FileEntry).filter (fun g => g.isFile)).filter
        (fun g => !(pyEndsWith g.name ".crdownload")), g.mtime ≤ 9 :=
  have h := (find_latest_file_selection
    [⟨"a.csv", 5, true⟩, ⟨"b.csv", 9, true⟩, ⟨"c.crdownload", 30, true⟩]
    ⟨"b.csv", 9, true⟩ (fun _ => none) (fun _ => none) "" 0
    ⟨2024, 1, 1, 0, 0, 0⟩ (fun _ => true)).2.1 (by decide)
  ⟨by decide, h.1, h.2⟩

/-- C4: the renamed artifact's name is exactly
`{new_name_prefix}_{yyyy-MM-dd_HH-mm-ss}{original extension}`; in particular
with prefix "Jira_Report", a `.csv` source file and the clock fixed at
2024-01-15T09:30:00 the result is `Jira_Report_2024-01-15_09-30-00.csv`. -/
theorem renamed_artifact_name (dirAt : Nat → Option (List FileEntry))
    (p : String) (w : Nat) (now : DateTime) (rok : FileEntry → Bool)
    (f : FileEntry) (hfound : find_latest_file (dirAt w) = some f)
    (hok : rok f = true) :
    find_and_rename_latest_file dirAt p w now rok =
      some (p ++ "_" ++ strftime_timestamp now ++ pySuffix f.name) ∧
    find_and_rename_latest_file (fun _ => some [⟨"export.csv", 100, true⟩])
      "Jira_Report" 15 ⟨2024, 1, 15, 9, 30, 0⟩ (fun _ => true) =
      some "Jira_Report_2024-01-15_09-30-00.csv" := by
  refine ⟨?_, rfl⟩
  unfold find_and_rename_latest_file
  rw [hfound]
  simp [hok]

theorem renamed_artifact_name_witness :
    find_and_rename_latest_file (fun _ => some [⟨"export.csv", 100, true⟩])
      "Jira_Report" 15 ⟨2024, 1, 15, 9, 30, 0⟩ (fun _ => true) =
      some ("Jira_Report" ++ "_" ++
        strftime_timestamp ⟨2024, 1, 15, 9, 30, 0⟩ ++ pySuffix "export.csv") :=
  (renamed_artifact_name (fun _ => some [⟨"export.csv", 100, true⟩])
    "Jira_Report" 15 ⟨2024, 1, 15, 9, 30, 0⟩ (fun _ => true)
    ⟨"export.csv", 100, true⟩ rfl rfl).1

/-- C5 counterexample: the mode-toggle probe of `_ensure_jql_mode` catches
`(TimeoutException, Exception)` — i.e. every exception — so a retries-exhausted
click failure during mode assurance is converted into success and the run
proceeds, contradicting the claim that only a timeout is tolerated there and
every other primitive failure aborts the run. -/
theorem mode_toggle_swallows_click_failure :
    ensure_jql_mode (Except.error (RunError.clickFailed 3)) = Except.ok () ∧
    execute_jql_and_export jqlEnvModeClickFailed =
      Except.ok "Jira_Report_2024-01-15_09-30-00.csv" :=
  ⟨rfl, rfl⟩

/-- C5 (amended): the mode-toggle probe converts EVERY failure of the
mode-switch click — timeout or any other exception, a retries-exhausted click
failure included — into "already in the desired mode"; a failure of any other
step of the query/export machine (query entry, search click, export-menu
click, CSV-option click, download handling) propagates unchanged and aborts
the run at that step. -/
theorem jql_failure_propagation (env : JqlEnv) (e : RunError) :
    ensure_jql_mode env.modeClick = Except.ok () ∧
    (env.queryKeys = Except.error e →
      execute_jql_and_export env = Except.error e) ∧
    (env.queryKeys = Except.ok () → env.searchClick = Except.error e →
      execute_jql_and_export env = Except.error e) ∧
    (env.queryKeys = Except.ok () → env.searchClick = Except.ok () →
      env.exportClick = Except.error e →
      execute_jql_and_export env = Except.error e) ∧
    (env.queryKeys = Except.ok () → env.searchClick = Except.ok () →
      env.exportClick = Except.ok () → env.csvClick = Except.error e →
      execute_jql_and_export env = Except.error e) ∧
    (env.queryKeys = Except.ok () → env.searchClick = Except.ok () →
      env.exportClick = Except.ok () → env.csvClick = Except.ok () →
      env.download = Except.error e →
      execute_jql_and_export env = Except.error e) := by
  have hmode : ensure_jql_mode env.modeClick = Except.ok () := by
    cases env.modeClick <;> rfl
  refine ⟨hmode, ?_, ?_, ?_, ?_, ?_⟩
  · intro h1
    simp only [execute_jql_and_export, hmode, h1]
    rfl
  · intro h1 h2
    simp only [execute_jql_and_export, hmode, h1, h2]
    rfl
  · intro h1 h2 h3
    simp only [execute_jql_and_export, hmode, h1, h2, h3]
    rfl
  · intro h1 h2 h3 h4
    simp only [execute_jql_and_export, hmode, h1, h2, h3, h4]
    rfl
  · intro h1 h2 h3 h4 h5
    simp only [execute_jql_and_export, hmode, h1, h2, h3, h4, h5]
    rfl

theorem jql_failure_propagation_witness :
    execute_jql_and_export jqlEnvQueryFailed = Except.error RunError.inputFailed :=
  (jql_failure_propagation jqlEnvQueryFailed RunError.inputFailed).2.1 rfl

/-- C6: with credential entry succeeding, if the MFA push control does not
become visible within the 10-second probe budget, `_handle_mfa` raises no
error and the machine proceeds directly to the dashboard wait; if it does
appear, the push is sent and the machine likewise proceeds to the dashboard
wait, which reads its visibility at the distinctly longer `MFA_TIMEOUT`
budget (the wait's outcome depends only on that sample). -/
theorem mfa_probe_absence_is_success (env : AuthEnv)
    (hcreds : enter_credentials env = Except.ok ()) :
    (env.mfaVisibleWithin MFA_PROBE_TIMEOUT = false →
      handle_mfa env.mfaVisibleWithin = Except.ok false ∧
      loginSteps env =
        Except.map (fun _ => false) (wait_for_dashboard env.dashboardVisibleWithin)) ∧
    (env.mfaVisibleWithin MFA_PROBE_TIMEOUT = true →
      handle_mfa env.mfaVisibleWithin = Except.ok true ∧
      loginSteps env =
        Except.map (fun _ => true) (wait_for_dashboard env.dashboardVisibleWithin)) ∧
    (∀ d d' : Nat → Bool, d MFA_TIMEOUT = d' MFA_TIMEOUT →
      wait_for_dashboard d = wait_for_dashboard d') ∧
    MFA_PROBE_TIMEOUT < MFA_TIMEOUT := by
  refine ⟨?_, ?_, ?_, by decide⟩
  · intro h
    refine ⟨by simp [handle_mfa, h], ?_⟩
    cases hw : env.dashboardVisibleWithin MFA_TIMEOUT <;>
      · simp only [loginSteps, hcreds, handle_mfa, h, wait_for_dashboard, hw,
          Bool.false_eq_true, if_false, if_true, Except.map]
        rfl
  · intro h
    refine ⟨by simp [handle_mfa, h], ?_⟩
    cases hw : env.dashboardVisibleWithin MFA_TIMEOUT <;>
      · simp only [loginSteps, hcreds, handle_mfa, h, wait_for_dashboard, hw,
          Bool.false_eq_true, if_false, if_true, Except.map]
        rfl
  · intro d d' h
    unfold wait_for_dashboard
    rw [h]

theorem mfa_probe_absence_is_success_witness :
    handle_mfa authEnvNoMfa.mfaVisibleWithin = Except.ok false ∧
    loginSteps authEnvNoMfa =
      Except.map (fun _ => false)
        (wait_for_dashboard authEnvNoMfa.dashboardVisibleWithin) :=
  (mfa_probe_absence_is_success authEnvNoMfa rfl).1 rfl

/-- C7 counterexample: with two windows already open at call time and the
count never increasing afterwards, `switch_to_new_tab` succeeds immediately
with the last window's title instead of failing with the tab-switch timeout
the claim requires — the wait is on the absolute count 2
(`EC.number_of_windows_to_be(2)`), not on an increase by one relative to the
count at call time. -/
theorem switch_to_new_tab_absolute_count_cex :
    switch_to_new_tab windowsAlreadyTwo 15 = Except.ok "Jira" ∧
    switch_to_new_tab windowsAlreadyTwo 15 ≠
      Except.error RunError.tabSwitchTimeout := by
  refine ⟨rfl, ?_⟩
  intro h
  rw [show switch_to_new_tab windowsAlreadyTwo 15 = Except.ok "Jira" from rfl] at h
  exact Except.noConfusion h

/-- C7 (amended): the tab-switch primitive blocks until the total window
count EQUALS 2; at the first instant that holds it focuses the most recently
opened window handle and returns its title, and if the count never equals 2
within the timeout it fails with the tab-switch timeout error. -/
theorem switch_to_new_tab_waits_for_two_windows (windowsAt : Nat → List String)
    (timeout t : Nat) :
    ((∀ s, s ≤ timeout → (windowsAt s).length ≠ 2) →
      switch_to_new_tab windowsAt timeout =
        Except.error RunError.tabSwitchTimeout) ∧
    (t ≤ timeout → (windowsAt t).length = 2 →
      (∀ s, s < t → (windowsAt s).length ≠ 2) →
      switch_to_new_tab windowsAt timeout =
        Except.ok ((windowsAt t).getLastD "")) := by
  constructor
  · intro h
    unfold switch_to_new_tab
    rw [pollUntil_eq_none (fun s => (windowsAt s).length == 2) timeout 0
      (fun s _ hs2 => by simpa using h s (by omega))]
  · intro ht h2 hmin
    unfold switch_to_new_tab
    rw [pollUntil_eq_some (fun s => (windowsAt s).length == 2) timeout 0 t
      (by simpa using h2) (by omega) (by omega)
      (fun s _ hs => by simpa using hmin s hs)]

theorem switch_to_new_tab_waits_for_two_windows_witness :
    switch_to_new_tab windowsGrow 15 = Except.ok "Jira" ∧
    switch_to_new_tab windowsGrow 1 = Except.error RunError.tabSwitchTimeout :=
  ⟨(switch_to_new_tab_waits_for_two_windows windowsGrow 15 3).2 (by decide)
      (by decide) (by decide),
   (switch_to_new_tab_waits_for_two_windows windowsGrow 1 0).1 (by decide)⟩

/-- C8 (code bug): `__exit__` runs `close_driver()` first, and `close_driver`
sets the driver slot to `None` in its `finally`, so the subsequent
`if exc_type and self.driver` guard is always false: `__exit__` is
observationally identical to a bare `close_driver` and the diagnostic
screenshot is never attempted (and its code sits after the release anyway,
against the claimed capture-before-release order).  Concretely, a failing
run with a live driver releases the browser and produces no screenshot
event; the orchestrator's `finally`-cleanup path likewise only releases. -/
theorem webdriver_exit_never_screenshots :
    (∀ (s : DriverManagerState) (excOccurred : Bool),
      webdriver_exit s excOccurred = close_driver s) ∧
    webdriver_exit ⟨some ()⟩ true = (⟨none⟩, [CleanupEvent.browserClosed]) ∧
    run_full_workflow ⟨none⟩ failingQueryRunSteps =
      (false, [CleanupEvent.browserClosed]) := by
  refine ⟨?_, rfl, rfl⟩
  rintro ⟨d⟩ excOccurred
  cases d <;> cases excOccurred <;> rfl

/-- C9: configuration validation fails (raises `ValueError`) precisely when
at least one of the four required fields is absent or empty, and the
accumulated `missing_vars` list — which the error message enumerates — holds
the name of a required field exactly when that field is absent or empty, so
every absent field is named, not just the first. -/
theorem validate_credentials_enumerates_missing (s : SettingsModel) :
    (validate_credentials s = Except.ok true ↔
      (falsyStr s.JUMPCLOUD_EMAIL = false ∧ falsyStr s.JUMPCLOUD_PASSWORD = false ∧
       falsyStr s.JIRA_SEARCH_URL = false ∧ falsyStr s.JQL_QUERY = false)) ∧
    ("JC_USERNAME" ∈ missing_vars s ↔ falsyStr s.JUMPCLOUD_EMAIL = true) ∧
    ("JC_PASSWORD" ∈ missing_vars s ↔ falsyStr s.JUMPCLOUD_PASSWORD = true) ∧
    ("JIRA_SEARCH_URL" ∈ missing_vars s ↔ falsyStr s.JIRA_SEARCH_URL = true) ∧
    ("JQL_QUERY" ∈ missing_vars s ↔ falsyStr s.JQL_QUERY = true) ∧
    (∀ msg, validate_credentials s = Except.error msg →
      msg = "Missing required environment variables: " ++
        String.intercalate ", " (missing_vars s)) := by
  cases h1 : falsyStr s.JUMPCLOUD_EMAIL <;>
    cases h2 : falsyStr s.JUMPCLOUD_PASSWORD <;>
      cases h3 : falsyStr s.JIRA_SEARCH_URL <;>
        cases h4 : falsyStr s.JQL_QUERY <;>
          simp [validate_credentials, missing_vars, required_vars, h1, h2, h3, h4]

theorem validate_credentials_enumerates_missing_witness :
    ("JC_PASSWORD" ∈ missing_vars settingsNoPassword) ∧
    "Missing required environment variables: JC_PASSWORD" =
      "Missing required environment variables: " ++
        String.intercalate ", " (missing_vars settingsNoPassword) :=
  ⟨(validate_credentials_enumerates_missing settingsNoPassword).2.2.1.mpr rfl,
   (validate_credentials_enumerates_missing settingsNoPassword).2.2.2.2.2
     "Missing required environment variables: JC_PASSWORD" rfl⟩

/-- C10: the JQL syntax check accepts exactly the queries that are non-empty
after stripping surrounding whitespace, contain some JQL keyword as a
case-insensitive substring, and contain evenly many single and double quotes
(counted on the original query — stripping cannot change either condition);
it rejects every empty or whitespace-only query, and as a total function it
never raises. -/
theorem validate_query_syntax_spec (q : String) :
    ( validate_query_syntax q = true ↔
      (pyStripL q.toList ≠ [] ∧
       (∃ k ∈ jql_keywords, occursIn (lowerL k.toList) (lowerL q.toList)) ∧
       q.toList.count singleQuoteChar % 2 = 0 ∧
       q.toList.count doubleQuoteChar % 2 = 0)) ∧
    ((∀ c ∈ q.toList, c.isWhitespace = true) → validate_query_syntax q = false) := by
  constructor
  · by_cases hempty : pyStripL q.toList = []
    · have hemptyD : pyStripL q.data = [] := hempty
      have hfalse : validate_query_syntax q = false := by
        simp [ validate_query_syntax, hemptyD]
      rw [hfalse]
      simp only [Bool.false_eq_true, false_iff]
      rintro ⟨hne, _⟩
      exact hne hempty
    · have hempty' : (pyStripL q.data).isEmpty = false := by
        simpa [List.isEmpty_iff] using hempty
      have hkw : (jql_keywords.any
            fun k => isInfixCL (lowerL k.toList) (lowerL (pyStripL q.toList))) = true ↔
          ∃ k ∈ jql_keywords, occursIn (lowerL k.toList) (lowerL q.toList) := by
        rw [List.any_eq_true]
        constructor
        · rintro ⟨k, hk, hinf⟩
          refine ⟨k, hk, ?_⟩
          have hcond : lowerL k.toList ≠ [] ∧
              ∀ a ∈ lowerL k.toList, a.isWhitespace = false := by
            fin_cases hk <;> exact ⟨by decide, by decide⟩
          exact (occursIn_lower_strip _ hcond.1 hcond.2 q.toList).mp
            ((isInfixCL_iff _ _).mp hinf)
        · rintro ⟨k, hk, hocc⟩
          refine ⟨k, hk, ?_⟩
          have hcond : lowerL k.toList ≠ [] ∧
              ∀ a ∈ lowerL k.toList, a.isWhitespace = false := by
            fin_cases hk <;> exact ⟨by decide, by decide⟩
          exact (isInfixCL_iff _ _).mpr
            ((occursIn_lower_strip _ hcond.1 hcond.2 q.toList).mpr hocc)
      have hsq : (pyStripL q.toList).count singleQuoteChar =
          q.toList.count singleQuoteChar := count_pyStripL _ (by decide) _
      have hdq : (pyStripL q.toList).count doubleQuoteChar =
          q.toList.count doubleQuoteChar := count_pyStripL _ (by decide) _
      rw [show validate_query_syntax q = ((jql_keywords.any
            fun k => isInfixCL (lowerL k.toList) (lowerL (pyStripL q.toList))) &&
          ((pyStripL q.toList).count singleQuoteChar % 2 == 0) &&
          ((pyStripL q.toList).count doubleQuoteChar % 2 == 0)) from by
        simp [ validate_query_syntax, hempty']]
      constructor
      · intro h
        rw [Bool.and_eq_true, Bool.and_eq_true] at h
        obtain ⟨⟨hA, hB⟩, hC⟩ := h
        refine ⟨hempty, hkw.mp hA, ?_, ?_⟩
        · rw [← hsq]
          exact beq_iff_eq.mp hB
        · rw [← hdq]
          exact beq_iff_eq.mp hC
      · rintro ⟨_, hk, hs, hd⟩
        rw [Bool.and_eq_true, Bool.and_eq_true]
        refine ⟨⟨hkw.mpr hk, ?_⟩, ?_⟩
        · exact beq_iff_eq.mpr (by rw [hsq]; exact hs)
        · exact beq_iff_eq.mpr (by rw [hdq]; exact hd)
  · intro h
    have hnil : List.dropWhile Char.isWhitespace q.toList = [] :=
      List.dropWhile_eq_nil_iff.mpr (fun x hx => h x hx)
    have h0 : pyStripL q.data = [] := by
      have hnilD : List.dropWhile Char.isWhitespace q.data = [] := hnil
      simp [pyStripL, hnilD]
    simp [ validate_query_syntax, h0]

theorem validate_query_syntax_spec_witness :
    (pyStripL ("project = ABC").toList ≠ [] ∧
     (∃ k ∈ jql_keywords,
        occursIn (lowerL k.toList) (lowerL ("project = ABC").toList)) ∧
     ("project = ABC").toList.count singleQuoteChar % 2 = 0 ∧
     ("project = ABC").toList.count doubleQuoteChar % 2 = 0) ∧
    validate_query_syntax "   " = false :=
  ⟨( validate_query_syntax_spec "project = ABC").1.mp (by decide),
   ( validate_query_syntax_spec "   ").2 (by decide)⟩

end JiraAuto
